import Mathlib

/-!
Verification development for the Stratum viewer's camera-interaction and
performance-mode controller (`src/unnamed/part_001`, the feature-complete
variant of `src/components/cesium-viewer.tsx`).

The rendering engine (Cesium) is modelled by records holding exactly the
fields the component reads or writes; numbers that are only ever assigned
(never computed with, except radius * 2.5) are rationals.
-/

/-- `type NavigationMode = "orbit" | "pan" | "zoom"` -/
inductive NavigationMode
  | orbit
  | pan
  | zoom
deriving DecidableEq

/-- `CameraEventType` members used by the component. -/
inductive CameraEventType
  | leftDrag
  | rightDrag
  | middleDrag
  | wheel
  | pinch
deriving DecidableEq

/-- `KeyboardEventModifier` members used by the component. -/
inductive KeyboardEventModifier
  | shift
  | ctrl
  | alt
deriving DecidableEq

/-- An entry of a camera-controller event-type list: either a plain
`CameraEventType` or an `{ eventType, modifier }` object. -/
structure EventSpec where
  eventType : CameraEventType
  modifier : Option KeyboardEventModifier := none
deriving DecidableEq

/-- The four gesture-category binding lists of
`scene.screenSpaceCameraController`. -/
structure CameraControllerBindings where
  rotateEventTypes : List EventSpec
  translateEventTypes : List EventSpec
  zoomEventTypes : List EventSpec
  tiltEventTypes : List EventSpec
deriving DecidableEq

/-- `const zoomCommon = [WHEEL, PINCH, {LEFT_DRAG, CTRL}]`
(part_001 lines 90-94). -/
def zoomCommon : List EventSpec :=
  [ { eventType := .wheel },
    { eventType := .pinch },
    { eventType := .leftDrag, modifier := some .ctrl } ]

/-- `controllerProps` (part_001 lines 89-121): the binding lists passed to
`ScreenSpaceCameraController` for each navigation mode. -/
def controllerProps : NavigationMode → CameraControllerBindings
  | .orbit =>
      { rotateEventTypes := [{ eventType := .leftDrag }]
        translateEventTypes :=
          [ { eventType := .rightDrag },
            { eventType := .leftDrag, modifier := some .shift } ]
        zoomEventTypes := zoomCommon
        tiltEventTypes := [{ eventType := .middleDrag }] }
  | .pan =>
      { translateEventTypes := [{ eventType := .leftDrag }]
        rotateEventTypes := [{ eventType := .rightDrag }]
        zoomEventTypes := zoomCommon
        tiltEventTypes := [{ eventType := .middleDrag }] }
  | .zoom =>
      { zoomEventTypes :=
          [ { eventType := .leftDrag },
            { eventType := .wheel },
            { eventType := .pinch } ]
        rotateEventTypes := [{ eventType := .rightDrag }]
        translateEventTypes := [{ eventType := .middleDrag }]
        tiltEventTypes := [] }

/-- Modelled from the spec (section 4.3 binding table together with the
clause that the two mode-invariant bindings, shift-drag to translate and
ctrl-drag to zoom, are present in every mode): the binding lists the spec
says each mode installs.  Rows are transcribed in the table's printed
order; for Zoom the two mode-invariant entries are appended since the
printed row lacks them. -/
def specNavTable : NavigationMode → CameraControllerBindings
  | .orbit =>
      { rotateEventTypes := [{ eventType := .leftDrag }]
        translateEventTypes :=
          [ { eventType := .rightDrag },
            { eventType := .leftDrag, modifier := some .shift } ]
        zoomEventTypes :=
          [ { eventType := .wheel },
            { eventType := .pinch },
            { eventType := .leftDrag, modifier := some .ctrl } ]
        tiltEventTypes := [{ eventType := .middleDrag }] }
  | .pan =>
      { rotateEventTypes := [{ eventType := .rightDrag }]
        translateEventTypes :=
          [ { eventType := .leftDrag },
            { eventType := .leftDrag, modifier := some .shift } ]
        zoomEventTypes :=
          [ { eventType := .wheel },
            { eventType := .pinch },
            { eventType := .leftDrag, modifier := some .ctrl } ]
        tiltEventTypes := [{ eventType := .middleDrag }] }
  | .zoom =>
      { rotateEventTypes := [{ eventType := .rightDrag }]
        translateEventTypes :=
          [ { eventType := .middleDrag },
            { eventType := .leftDrag, modifier := some .shift } ]
        zoomEventTypes :=
          [ { eventType := .leftDrag },
            { eventType := .wheel },
            { eventType := .pinch },
            { eventType := .leftDrag, modifier := some .ctrl } ]
        tiltEventTypes := [] }

/-- The tunable tileset fields the component writes
(`Cesium3DTileset`), plus the bounding sphere it reads. -/
structure BoundingSphere where
  centerX : ℚ
  centerY : ℚ
  centerZ : ℚ
  radius : ℚ
deriving DecidableEq

structure TilesetState where
  boundingSphere : Option BoundingSphere
  debugWireframe : Bool
  maximumScreenSpaceError : ℚ
  skipLevelOfDetail : Bool
  preferLeaves : Bool
  dynamicScreenSpaceError : Bool
  dynamicScreenSpaceErrorDensity : ℚ
  dynamicScreenSpaceErrorFactor : ℚ
  dynamicScreenSpaceErrorHeightFalloff : ℚ
  foveatedScreenSpaceError : Bool
  foveatedConeSize : ℚ
  foveatedMinimumScreenSpaceErrorRelaxation : ℚ
  immediatelyLoadDesiredLevelOfDetail : Bool
  cacheBytes : ℕ
  maximumCacheOverflowBytes : ℕ
  loadSiblings : Bool
deriving DecidableEq

/-- `applyTilesetPerformance` (part_001 lines 191-220): field-for-field
transcription of the two branches. -/
def applyTilesetPerformance (tileset : TilesetState) (highPerf : Bool) : TilesetState :=
  if highPerf then
    { tileset with
      maximumScreenSpaceError := 24
      skipLevelOfDetail := true
      preferLeaves := true
      dynamicScreenSpaceError := true
      dynamicScreenSpaceErrorDensity := 0.002
      dynamicScreenSpaceErrorFactor := 8.0
      dynamicScreenSpaceErrorHeightFalloff := 0.25
      foveatedScreenSpaceError := true
      foveatedConeSize := 0.15
      foveatedMinimumScreenSpaceErrorRelaxation := 0.0
      immediatelyLoadDesiredLevelOfDetail := false
      cacheBytes := 256 * 1024 * 1024
      maximumCacheOverflowBytes := 128 * 1024 * 1024
      loadSiblings := false }
  else
    { tileset with
      maximumScreenSpaceError := 4
      skipLevelOfDetail := false
      preferLeaves := false
      dynamicScreenSpaceError := false
      foveatedScreenSpaceError := false
      immediatelyLoadDesiredLevelOfDetail := true
      cacheBytes := 1024 * 1024 * 1024
      loadSiblings := true }

/-- `scene.maximumRenderTimeChange` is set to `Infinity` in eco mode, so
the field needs a point at infinity. -/
inductive RenderTimeChange
  | finite (value : ℚ)
  | infinite
deriving DecidableEq

/-- A visibility flag behind a presence check (`if (scene.skyBox)
scene.skyBox.show = b`): `none` when the object is absent. -/
def setIfPresent (o : Option Bool) (b : Bool) : Option Bool :=
  match o with
  | none => none
  | some _ => some b

/-- `scene.screenSpaceCameraController`: the binding lists plus the zoom
and collision settings the component writes. -/
structure ScreenSpaceCameraControllerState where
  bindings : CameraControllerBindings
  enableCollisionDetection : Bool
  minimumZoomDistance : ℚ
  maximumZoomDistance : ℚ
  inertiaZoom : ℚ
  zoomFactor : ℚ
deriving DecidableEq

/-- The `viewer.scene` fields the component writes. -/
structure SceneState where
  backgroundColor : String
  requestRenderMode : Bool
  maximumRenderTimeChange : RenderTimeChange
  fxaaEnabled : Bool
  fogEnabled : Bool
  highDynamicRange : Bool
  globeShow : Bool
  globeEnableLighting : Bool
  globeShowGroundAtmosphere : Bool
  globeDepthTestAgainstTerrain : Bool
  skyBoxShow : Option Bool
  skyAtmosphereShow : Option Bool
  sunShow : Option Bool
  moonShow : Option Bool
  logarithmicDepthBuffer : Bool
  useDepthPicking : Bool
  pickTranslucentDepth : Bool
  shadowMapEnabled : Bool
  debugShowFramesPerSecond : Bool
  screenSpaceCameraController : ScreenSpaceCameraControllerState
deriving DecidableEq

/-- A framing `viewer.camera.viewBoundingSphere(sphere, hpr)` call. -/
structure HeadingPitchRange where
  heading : ℚ
  pitch : ℚ
  range : ℚ
deriving DecidableEq

/-- The engine camera: the framing calls issued so far, plus a fault flag
making the next `viewBoundingSphere` call throw (for containment of
engine failures, spec section 4.4). -/
structure CameraState where
  moves : List (BoundingSphere × HeadingPitchRange)
  failing : Bool
deriving DecidableEq

/-- The engine viewer object: `isDestroyed()` predicate, scene, camera and
`viewer.targetFrameRate`. -/
structure ViewerState where
  destroyed : Bool
  scene : SceneState
  camera : CameraState
  targetFrameRate : ℚ
deriving DecidableEq

/-- `applyScenePerformance` (part_001 lines 246-295): field-for-field
transcription of the two branches (`showGlobePref` is the `showGlobe`
user preference threaded through). -/
def applyScenePerformance (viewer : ViewerState) (highPerf : Bool)
    (showGlobePref : Bool) : ViewerState :=
  if highPerf then
    { viewer with
      targetFrameRate := 60
      scene :=
        { viewer.scene with
          requestRenderMode := true
          maximumRenderTimeChange := .infinite
          fxaaEnabled := false
          fogEnabled := false
          highDynamicRange := false
          globeShow := showGlobePref
          globeEnableLighting := false
          globeShowGroundAtmosphere := false
          globeDepthTestAgainstTerrain := false
          skyBoxShow := setIfPresent viewer.scene.skyBoxShow false
          skyAtmosphereShow := setIfPresent viewer.scene.skyAtmosphereShow false
          sunShow := setIfPresent viewer.scene.sunShow false
          moonShow := setIfPresent viewer.scene.moonShow false
          logarithmicDepthBuffer := false
          useDepthPicking := false
          pickTranslucentDepth := false
          shadowMapEnabled := false
          debugShowFramesPerSecond := false } }
  else
    { viewer with
      targetFrameRate := 60
      scene :=
        { viewer.scene with
          requestRenderMode := false
          fxaaEnabled := true
          fogEnabled := true
          highDynamicRange := true
          globeEnableLighting := true
          globeShow := showGlobePref
          skyBoxShow := setIfPresent viewer.scene.skyBoxShow showGlobePref
          skyAtmosphereShow := setIfPresent viewer.scene.skyAtmosphereShow showGlobePref
          logarithmicDepthBuffer := true
          useDepthPicking := true } }

/-- `configureCameraControls` (part_001 lines 123-130): mount-time zoom
and collision settings on the camera controller. -/
def configureCameraControls (viewer : ViewerState) : ViewerState :=
  { viewer with
    scene :=
      { viewer.scene with
        screenSpaceCameraController :=
          { viewer.scene.screenSpaceCameraController with
            enableCollisionDetection := false
            minimumZoomDistance := 1
            maximumZoomDistance := 100000
            inertiaZoom := 0.5
            zoomFactor := 5 } } }

/-- The `ScreenSpaceCameraController` element (part_001 lines 508-515):
the mode's binding lists spread together with the fixed zoom settings. -/
def screenSpaceCameraControllerElement (navMode : NavigationMode) :
    ScreenSpaceCameraControllerState :=
  { bindings := controllerProps navMode
    minimumZoomDistance := 1
    maximumZoomDistance := 100000
    inertiaZoom := 0.5
    zoomFactor := 5
    enableCollisionDetection := false }

namespace LegacyViewer

/-- The camera-controller record of `src/components/cesium-viewer.tsx`:
exactly the fields its `configureCameraControls` writes. -/
structure ControllerState where
  enableRotate : Bool
  enableTranslate : Bool
  enableZoom : Bool
  enableTilt : Bool
  enableLook : Bool
  bindings : CameraControllerBindings
  minimumZoomDistance : ℚ
  maximumZoomDistance : ℚ
  inertiaZoom : ℚ
  zoomFactor : ℚ
deriving DecidableEq

/-- `configureCameraControls` (cesium-viewer.tsx lines 50-106): resets the
enables, clears all four event-type lists, installs the mode's lists, then
sets the zoom settings. -/
def configureCameraControls (controller : ControllerState)
    (mode : NavigationMode) : ControllerState :=
  let cleared : ControllerState :=
    { controller with
      enableRotate := true
      enableTranslate := true
      enableZoom := true
      enableTilt := true
      enableLook := true
      bindings :=
        { rotateEventTypes := []
          translateEventTypes := []
          zoomEventTypes := []
          tiltEventTypes := [] } }
  let configured : ControllerState :=
    match mode with
    | .orbit =>
        { cleared with
          bindings :=
            { rotateEventTypes := [{ eventType := .leftDrag }]
              translateEventTypes :=
                [ { eventType := .rightDrag },
                  { eventType := .leftDrag, modifier := some .shift } ]
              zoomEventTypes :=
                [ { eventType := .wheel },
                  { eventType := .pinch },
                  { eventType := .leftDrag, modifier := some .ctrl } ]
              tiltEventTypes := [{ eventType := .middleDrag }] } }
    | .pan =>
        { cleared with
          bindings :=
            { translateEventTypes := [{ eventType := .leftDrag }]
              rotateEventTypes := [{ eventType := .rightDrag }]
              zoomEventTypes :=
                [ { eventType := .wheel },
                  { eventType := .pinch },
                  { eventType := .leftDrag, modifier := some .ctrl } ]
              tiltEventTypes := [{ eventType := .middleDrag }] } }
    | .zoom =>
        { cleared with
          bindings :=
            { zoomEventTypes :=
                [ { eventType := .leftDrag },
                  { eventType := .wheel },
                  { eventType := .pinch } ]
              rotateEventTypes := [{ eventType := .rightDrag }]
              translateEventTypes := [{ eventType := .middleDrag }]
              tiltEventTypes := [] } }
  { configured with
    minimumZoomDistance := 1
    maximumZoomDistance := 100000
    inertiaZoom := 0.5
    zoomFactor := 5 }

end LegacyViewer

/-- `NAV_CURSORS` (part_001 lines 41-45). -/
def NAV_CURSORS : NavigationMode → String
  | .orbit => "grab"
  | .pan => "grab"
  | .zoom => "zoom-in"

/-- `ROTATE_CURSOR` (part_001 line 47). -/
def ROTATE_CURSOR : String :=
  "url(\"data:image/svg+xml,%3Csvg xmlns='http://www.w3.org/2000/svg' width='24' height='24' viewBox='0 0 24 24' fill='none' stroke='white' stroke-width='3' stroke-linecap='round' stroke-linejoin='round'%3E%3Cpath d='M3.5 15a9 9 0 1 0 2.13-9.36L3.5 8'/%3E%3Cpolyline points='3.5 3 3.5 8 8.5 8'/%3E%3C/svg%3E\") 12 12, auto"

/-- The cursor-derivation effect (part_001 lines 132-143): the cursor
written to the container and canvas, as a function of
`(navMode, isPanDragging, isRotateDragging)`. -/
def cursorFor (navMode : NavigationMode)
    (isPanDragging isRotateDragging : Bool) : String :=
  if navMode = .pan then
    if isPanDragging then "grabbing"
    else if isRotateDragging then ROTATE_CURSOR
    else "grab"
  else NAV_CURSORS navMode

/-- Reverse of the literal `"/tileset.json"`, the suffix both URL helpers
match case-insensitively. -/
def revTilesetJson : List Char := "/tileset.json".data.reverse

/-- The reversed-capture step of the regex: the run of non-slash
characters before the next slash (`none` when no slash follows, matching
the regex's required `\/` before the capture). -/
def segUpToSlash : List Char → Option (List Char)
  | [] => none
  | ch :: rest =>
      if ch = '/' then some []
      else (segUpToSlash rest).map (fun s => ch :: s)

/-- The capture of `url.match(/\/([^/]+)\/tileset\.json$/i)` (part_001
lines 50-51), or the fallback `"model"`: working from the reversed
character list, the URL must end in `/tileset.json` (case-insensitively),
preceded by a non-empty run of non-slash characters, preceded by a
slash. -/
def sceneSegmentOfUrl (url : String) : List Char :=
  let rev := url.data.reverse
  if (rev.take 13).map Char.toLower == revTilesetJson then
    match segUpToSlash (rev.drop 13) with
    | some (ch :: rest) => (ch :: rest).reverse
    | _ => "model".data
  else "model".data

/-- `getSceneDisplayNameFromUrl` (part_001 lines 49-53): the matched
segment (or `"model"`) with its first character upper-cased and the
remainder lower-cased. -/
def getSceneDisplayNameFromUrl (url : String) : String :=
  match sceneSegmentOfUrl url with
  | [] => ""
  | c :: cs => String.mk (c.toUpper :: cs.map Char.toLower)

/-- `getDataPathFromUrl` (part_001 lines 55-59): strip a leading slash
(`url.startsWith("/") ? url.slice(1) : url`), replace the
case-insensitive suffix `/tileset.json` by `/`, prepend `public/`. -/
def getDataPathFromUrl (url : String) : String :=
  let pathChars : List Char :=
    match url.data with
    | '/' :: rest => rest
    | cs => cs
  let rev := pathChars.reverse
  let dir :=
    if (rev.take 13).map Char.toLower == revTilesetJson then
      String.mk ((rev.drop 13).reverse ++ ['/'])
    else String.mk pathChars
  "public/" ++ dir

/-- `URLSearchParams.get`: the value of the first pair with the key. -/
def getParam (params : List (String × String)) (key : String) : Option String :=
  (params.find? (fun kv => kv.1 == key)).map (fun kv => kv.2)

/-- `ecoModeFromSearchParams` (part_001 lines 61-66). -/
def ecoModeFromSearchParams (params : List (String × String)) : Bool :=
  let p := getParam params "eco"
  if p = some "false" then false
  else if p = some "true" then true
  else true

/-- The component's `useState` fields (part_001 lines 76-83). -/
structure ComponentState where
  isLoading : Bool
  error : Option String
  showGlobe : Bool
  showWireframe : Bool
  navMode : NavigationMode
  isPanDragging : Bool
  isRotateDragging : Bool
  ecoMode : Bool
deriving DecidableEq

/-- The initial `useState` values (part_001 lines 76-83):
loading, no error, globe and wireframe off, pan mode, no drag,
eco mode from the query string. -/
def initialComponentState (params : List (String × String)) : ComponentState :=
  { isLoading := true
    error := none
    showGlobe := false
    showWireframe := false
    navMode := .pan
    isPanDragging := false
    isRotateDragging := false
    ecoMode := ecoModeFromSearchParams params }

/-- One mounted viewer instance: the component state, the engine objects
it references, and counters instrumenting the side effects the claims
speak about (timers scheduled, profile applications, caught-and-logged
failures, the navigation issued by the eco toggle). -/
structure World where
  tilesetUrl : String
  viewerMounted : Bool
  viewer : ViewerState
  tilesetRefSet : Bool
  tileset : TilesetState
  comp : ComponentState
  framingsScheduled : ℕ
  profileApplications : ℕ
  warnings : ℕ
  pendingNavigationEco : Option Bool
deriving DecidableEq

/-- `viewer.camera.viewBoundingSphere(sphere, hpr)`: throws on a destroyed
viewer or an injected camera fault, otherwise records the framing call. -/
def viewBoundingSphereCall (v : ViewerState) (sphere : BoundingSphere)
    (hpr : HeadingPitchRange) : Except String ViewerState :=
  if v.destroyed then .error "This object was destroyed"
  else if v.camera.failing then .error "camera move failure"
  else .ok { v with camera := { v.camera with moves := v.camera.moves ++ [(sphere, hpr)] } }

/-- `zoomToTileset` (part_001 lines 173-188): no-op without both refs;
reads the bounding sphere, frames it at `range = radius * 2.5` with
heading 0 and pitch -0.5; any engine throw is caught and logged
(`warnings` counts the `console.warn`). -/
def zoomToTileset (w : World) : World :=
  if !w.viewerMounted || !w.tilesetRefSet then w
  else
    match w.tileset.boundingSphere with
    | none => w
    | some sphere =>
        let range := sphere.radius * 2.5
        match viewBoundingSphereCall w.viewer sphere ⟨0, -0.5, range⟩ with
        | .error _ => { w with warnings := w.warnings + 1 }
        | .ok v => { w with viewer := v }

/-- `handleTilesetReady` (part_001 lines 222-237): store the handle, apply
the tileset performance profile for the current eco mode, clear the
loading flag and schedule one deferred framing (`framingsScheduled`
counts the `setTimeout` calls, `profileApplications` the
`applyTilesetPerformance` calls). -/
def fireTilesetReady (w : World) : World :=
  { w with
    tilesetRefSet := true
    tileset := applyTilesetPerformance w.tileset w.comp.ecoMode
    profileApplications := w.profileApplications + 1
    comp := { w.comp with isLoading := false }
    framingsScheduled := w.framingsScheduled + 1 }

/-- The deferred 100ms callback scheduled by `handleTilesetReady` firing:
it runs `zoomToTileset`. -/
def settleTimer (w : World) : World := zoomToTileset w

/-- `handleTilesetError` (part_001 lines 239-243). -/
def fireTilesetError (w : World) : World :=
  { w with comp := { w.comp with
      isLoading := false
      error := some "Failed to load 3D tileset. Check if the data files exist." } }

/-- The globe-visibility effect (part_001 lines 339-346): guarded by the
liveness check `!viewer || viewer.isDestroyed()`. -/
def globeVisibilityEffect (w : World) : World :=
  if w.viewerMounted && !w.viewer.destroyed then
    { w with viewer := { w.viewer with scene := { w.viewer.scene with
        globeShow := w.comp.showGlobe
        skyBoxShow := setIfPresent w.viewer.scene.skyBoxShow w.comp.showGlobe
        skyAtmosphereShow := setIfPresent w.viewer.scene.skyAtmosphereShow w.comp.showGlobe } } }
  else w

/-- The wireframe effect (part_001 lines 349-353): only a presence check
on the tileset ref, no liveness check. -/
def wireframeEffect (w : World) : World :=
  if w.tilesetRefSet then
    { w with tileset := { w.tileset with debugWireframe := w.comp.showWireframe } }
  else w

/-- The eco-mode effect (part_001 lines 356-365): scene application is
liveness-guarded, tileset application is only presence-checked. -/
def ecoEffect (w : World) : World :=
  let w1 :=
    if w.viewerMounted && !w.viewer.destroyed then
      { w with viewer := applyScenePerformance w.viewer w.comp.ecoMode w.comp.showGlobe }
    else w
  if w1.tilesetRefSet then
    { w1 with
      tileset := applyTilesetPerformance w1.tileset w1.comp.ecoMode
      profileApplications := w1.profileApplications + 1 }
  else w1

/-- The `ScreenSpaceCameraController` element's props being applied to the
live controller when `navMode` changes (part_001 lines 508-515): the
library writes the mounted viewer's controller with no liveness check. -/
def controllerPropsSync (w : World) : World :=
  if w.viewerMounted then
    { w with viewer := { w.viewer with scene := { w.viewer.scene with
        screenSpaceCameraController := screenSpaceCameraControllerElement w.comp.navMode } } }
  else w

/-- `toggleGlobe` (part_001 lines 322-324) together with the effects whose
dependency lists contain `showGlobe` (the globe-visibility effect, then
the eco effect), in declaration order. -/
def toggleGlobe (w : World) : World :=
  ecoEffect (globeVisibilityEffect
    { w with comp := { w.comp with showGlobe := !w.comp.showGlobe } })

/-- `toggleWireframe` (part_001 lines 326-328) together with the
wireframe effect. -/
def toggleWireframe (w : World) : World :=
  wireframeEffect { w with comp := { w.comp with showWireframe := !w.comp.showWireframe } }

/-- `setNavMode(mode)` (part_001 lines 434, 446, 458) together with the
controller element's prop application. -/
def setNavMode (w : World) (mode : NavigationMode) : World :=
  controllerPropsSync { w with comp := { w.comp with navMode := mode } }

/-- `toggleEcoMode` (part_001 lines 330-336): computes the next eco value
and navigates to the URL carrying it; the in-memory state fields are not
written. -/
def toggleEcoMode (w : World) : World :=
  { w with pendingNavigationEco := some (!w.comp.ecoMode) }

/-- `resetCamera` (part_001 lines 318-320). -/
def resetCamera (w : World) : World := zoomToTileset w

/-- `handleViewerReady` (part_001 lines 297-316): background color, globe
visibility, mount-time camera-control settings, then the scene
performance profile. -/
def handleViewerReady (w : World) : World :=
  let v0 := { w.viewer with scene := { w.viewer.scene with
      backgroundColor := "#0f172a"
      globeShow := w.comp.showGlobe } }
  let v1 := configureCameraControls v0
  let v2 := applyScenePerformance v1 w.comp.ecoMode w.comp.showGlobe
  { w with viewerMounted := true, viewer := v2 }

/-- The loading overlay (part_001 lines 370-377) is rendered iff
`isLoading`. -/
def loadingOverlayVisible (w : World) : Bool := w.comp.isLoading

/-- The error overlay (part_001 lines 380-387): when `error` is set, the
message plus the hint line naming the expected asset directory computed
from the tileset URL. -/
def errorOverlay (w : World) : Option (String × String) :=
  w.comp.error.map (fun message =>
    (message, "Make sure tileset.json and .b3dm files are in " ++ getDataPathFromUrl w.tilesetUrl))

/-! Helper lemmas shared by several claims. -/

lemma setIfPresent_setIfPresent (o : Option Bool) (b c : Bool) :
    setIfPresent (setIfPresent o b) c = setIfPresent o c := by
  cases o <;> rfl

lemma applyTilesetPerformance_idem (t : TilesetState) (e : Bool) :
    applyTilesetPerformance (applyTilesetPerformance t e) e = applyTilesetPerformance t e := by
  cases e <;> rfl

lemma applyTilesetPerformance_boundingSphere (t : TilesetState) (e : Bool) :
    (applyTilesetPerformance t e).boundingSphere = t.boundingSphere := by
  cases e <;> rfl

lemma applyScenePerformance_controller (v : ViewerState) (e pref : Bool) :
    (applyScenePerformance v e pref).scene.screenSpaceCameraController
      = v.scene.screenSpaceCameraController := by
  cases e <;> rfl

/-- C2, counterexample: the claim fails on the code.  Pan mode's translate
list is `[LEFT_DRAG]` with no shift entry, so it differs from the spec's
Pan row (`left-drag (+shift+left-drag)`); Zoom mode carries neither the
mode-invariant shift-drag-to-translate nor the ctrl-drag-to-zoom binding,
so the mode-invariant bindings are not present in every mode. -/
theorem controllerProps_ne_specNavTable :
    controllerProps .pan ≠ specNavTable .pan ∧
    controllerProps .zoom ≠ specNavTable .zoom ∧
    ({ eventType := .leftDrag, modifier := some .shift } : EventSpec)
      ∉ (controllerProps .pan).translateEventTypes ∧
    ({ eventType := .leftDrag, modifier := some .shift } : EventSpec)
      ∉ (controllerProps .zoom).translateEventTypes ∧
    ({ eventType := .leftDrag, modifier := some .ctrl } : EventSpec)
      ∉ (controllerProps .zoom).zoomEventTypes := by
  refine ⟨by decide, by decide, by decide, by decide, by decide⟩

/-- C2, amended: after `setNavMode(M)` the binding lists are a pure
function of M with no residue from the previous mode (in the legacy
variant because `configureCameraControls` clears all four lists before
installing the mode's lists, so its binding output is independent of the
previous controller state and agrees with `controllerProps`).  Orbit
equals its spec table row, which already contains both mode-invariant
bindings; Pan equals its row except that the shift-drag-to-translate
entry is absent (the ctrl-drag-to-zoom entry is present); Zoom equals its
printed row, which contains neither mode-invariant binding. -/
theorem controllerProps_matches_amended_table :
    controllerProps .orbit = specNavTable .orbit ∧
    controllerProps .pan
      = { specNavTable .pan with translateEventTypes := [{ eventType := .leftDrag }] } ∧
    controllerProps .zoom
      = { rotateEventTypes := [{ eventType := .rightDrag }]
          translateEventTypes := [{ eventType := .middleDrag }]
          zoomEventTypes :=
            [ { eventType := .leftDrag },
              { eventType := .wheel },
              { eventType := .pinch } ]
          tiltEventTypes := [] } ∧
    ({ eventType := .leftDrag, modifier := some .ctrl } : EventSpec)
      ∈ (controllerProps .pan).zoomEventTypes ∧
    (∀ (c c' : LegacyViewer.ControllerState) (m : NavigationMode),
      (LegacyViewer.configureCameraControls c m).bindings
        = (LegacyViewer.configureCameraControls c' m).bindings) ∧
    (∀ (c : LegacyViewer.ControllerState) (m : NavigationMode),
      (LegacyViewer.configureCameraControls c m).bindings = controllerProps m) := by
  refine ⟨by decide, by decide, by decide, by decide, ?_, ?_⟩
  · intro c c' m
    cases m <;> rfl
  · intro c m
    cases m <;> rfl

/-- A concrete scene differing only in the shadow-map flag, for the C3
counterexample. -/
def sceneProbe (shadow : Bool) : SceneState :=
  { backgroundColor := "#0f172a"
    requestRenderMode := false
    maximumRenderTimeChange := .finite 0
    fxaaEnabled := true
    fogEnabled := true
    highDynamicRange := true
    globeShow := false
    globeEnableLighting := false
    globeShowGroundAtmosphere := false
    globeDepthTestAgainstTerrain := false
    skyBoxShow := some false
    skyAtmosphereShow := some false
    sunShow := some true
    moonShow := some true
    logarithmicDepthBuffer := true
    useDepthPicking := true
    pickTranslucentDepth := false
    shadowMapEnabled := shadow
    debugShowFramesPerSecond := false
    screenSpaceCameraController :=
      { bindings := controllerProps .pan
        enableCollisionDetection := false
        minimumZoomDistance := 1
        maximumZoomDistance := 100000
        inertiaZoom := 0.5
        zoomFactor := 5 } }

def viewerProbe (shadow : Bool) : ViewerState :=
  { destroyed := false
    scene := sceneProbe shadow
    camera := { moves := [], failing := false }
    targetFrameRate := 60 }

/-- C3, counterexample: applying the Quality profile is not a total
overwrite of the section 4.2 table fields, and the resulting state does
not depend only on the last profile applied.  The Quality branch of
`applyScenePerformance` never writes `scene.shadowMap.enabled` (the
table's shadows row), so two scenes differing only in that flag still
differ after an identical Quality application. -/
theorem quality_profile_not_total_overwrite :
    (applyScenePerformance (viewerProbe true) false true).scene.shadowMapEnabled = true ∧
    (applyScenePerformance (viewerProbe false) false true).scene.shadowMapEnabled = false ∧
    applyScenePerformance (viewerProbe true) false true
      ≠ applyScenePerformance (viewerProbe false) false true := by
  refine ⟨rfl, rfl, fun h => ?_⟩
  have hshadow := congrArg (fun v => v.scene.shadowMapEnabled) h
  exact Bool.noConfusion (show (true : Bool) = false from hshadow)

/-- C3, amended: every field the Quality branch writes is also written by
the Eco branch (on each bundle), so applying Eco, then Quality, then Eco
yields tileset and scene parameters identical to a single direct Eco
application, and repeated application of one profile is idempotent; but
Quality is not a total overwrite of the listed fields (the scene
shadow-map flag, and the tileset dynamic-error tuning subfields, are left
unchanged by it), so the state after a Quality application still depends
on the prior state. -/
theorem performance_profile_roundtrip :
    (∀ t : TilesetState,
      applyTilesetPerformance (applyTilesetPerformance (applyTilesetPerformance t true) false) true
        = applyTilesetPerformance t true) ∧
    (∀ (v : ViewerState) (pref : Bool),
      applyScenePerformance
          (applyScenePerformance (applyScenePerformance v true pref) false pref) true pref
        = applyScenePerformance v true pref) ∧
    (∀ (t : TilesetState) (e : Bool),
      applyTilesetPerformance (applyTilesetPerformance t e) e = applyTilesetPerformance t e) ∧
    (∀ (v : ViewerState) (e pref : Bool),
      applyScenePerformance (applyScenePerformance v e pref) e pref
        = applyScenePerformance v e pref) := by
  refine ⟨fun t => rfl, fun v pref => ?_, applyTilesetPerformance_idem, fun v e pref => ?_⟩
  · simp [applyScenePerformance, setIfPresent_setIfPresent]
  · cases e <;> simp [applyScenePerformance, setIfPresent_setIfPresent]

/-- A concrete loaded tileset (field values as in the repository's cesium
mock), for concrete-world theorems. -/
def tilesetProbe : TilesetState :=
  { boundingSphere := some { centerX := 0, centerY := 0, centerZ := 0, radius := 100 }
    debugWireframe := false
    maximumScreenSpaceError := 16
    skipLevelOfDetail := false
    preferLeaves := false
    dynamicScreenSpaceError := false
    dynamicScreenSpaceErrorDensity := 0.002
    dynamicScreenSpaceErrorFactor := 4.0
    dynamicScreenSpaceErrorHeightFalloff := 0.25
    foveatedScreenSpaceError := false
    foveatedConeSize := 0.1
    foveatedMinimumScreenSpaceErrorRelaxation := 0.0
    immediatelyLoadDesiredLevelOfDetail := false
    cacheBytes := 512 * 1024 * 1024
    maximumCacheOverflowBytes := 256 * 1024 * 1024
    loadSiblings := true }

/-- A mounted viewer on the demo URL, still loading, no eco query
parameter, tileset not yet delivered. -/
def baseWorld : World :=
  { tilesetUrl := "/data/alpha/tileset.json"
    viewerMounted := true
    viewer :=
      { destroyed := false
        scene := sceneProbe false
        camera := { moves := [], failing := false }
        targetFrameRate := 60 }
    tilesetRefSet := false
    tileset := tilesetProbe
    comp := initialComponentState []
    framingsScheduled := 0
    profileApplications := 0
    warnings := 0
    pendingNavigationEco := none }

/-- C1, counterexample: firing the tileset-ready callback twice is not a
no-op.  Each call schedules another deferred framing (`setTimeout`) and
re-applies the tileset performance profile, so after a redundant second
signal two framing actions have been scheduled and the profile has been
applied twice. -/
theorem redundant_ready_not_noop :
    (fireTilesetReady (fireTilesetReady baseWorld)).framingsScheduled = 2 ∧
    (fireTilesetReady (fireTilesetReady baseWorld)).profileApplications = 2 ∧
    baseWorld.framingsScheduled = 0 ∧
    baseWorld.profileApplications = 0 ∧
    fireTilesetReady (fireTilesetReady baseWorld) ≠ fireTilesetReady baseWorld := by
  refine ⟨rfl, rfl, rfl, rfl, fun h => ?_⟩
  have hc := congrArg World.framingsScheduled h
  exact absurd hc (by decide)

/-- C1, amended: a redundant ready signal after the first
Loading-to-Ready transition leaves the component state, the stored
handle and the tileset parameters unchanged (profile application is
idempotent), but it does re-apply the performance profile and schedules
one additional framing action per call, rather than being a no-op. -/
theorem redundant_ready_effects :
    ∀ w : World,
      (fireTilesetReady (fireTilesetReady w)).comp = (fireTilesetReady w).comp ∧
      (fireTilesetReady (fireTilesetReady w)).tileset = (fireTilesetReady w).tileset ∧
      (fireTilesetReady (fireTilesetReady w)).tilesetRefSet
        = (fireTilesetReady w).tilesetRefSet ∧
      (fireTilesetReady (fireTilesetReady w)).framingsScheduled
        = (fireTilesetReady w).framingsScheduled + 1 ∧
      (fireTilesetReady (fireTilesetReady w)).profileApplications
        = (fireTilesetReady w).profileApplications + 1 := by
  intro w
  refine ⟨rfl, ?_, rfl, rfl, rfl⟩
  simp [fireTilesetReady, applyTilesetPerformance_idem]

/-- The base world with the engine viewer reporting itself destroyed and
the tileset handle stored, for the C4 theorems. -/
def destroyedWorld : World :=
  { baseWorld with
    tilesetRefSet := true
    viewer := { baseWorld.viewer with destroyed := true } }

/-- C4, counterexample: with the engine's destroyed predicate true, the
toggles do not all leave the engine's objects unmutated, and not every
toggle updates the in-memory state to the requested value.  The
wireframe effect writes the tileset handle (an engine object) behind a
mere presence check, and the eco toggle leaves `ecoMode` unchanged
(requested `false`, still `true`), recording a navigation instead. -/
theorem destroyed_engine_claim_fails :
    destroyedWorld.viewer.destroyed = true ∧
    destroyedWorld.tileset.debugWireframe = false ∧
    (toggleWireframe destroyedWorld).tileset.debugWireframe = true ∧
    destroyedWorld.comp.ecoMode = true ∧
    (toggleEcoMode destroyedWorld).comp.ecoMode = true ∧
    (toggleEcoMode destroyedWorld).pendingNavigationEco = some false := by
  exact ⟨rfl, rfl, rfl, rfl, rfl, rfl⟩

/-- C4, amended: with the engine viewer destroyed (and the tileset handle
stored), every toggle operation still completes without throwing, the
liveness-guarded viewer-scene writes are skipped, and the globe,
wireframe and navigation-mode toggles update the component state to the
requested value; but the tileset handle is still written by the
wireframe and profile effects (presence check only), the camera
controller is still written on a mode change, camera reset issues no
move only because the engine throw is caught, and the eco toggle records
a navigation URL instead of updating the in-memory state. -/
theorem destroyed_engine_guarded_behavior :
    ∀ (w : World) (m : NavigationMode),
      w.viewerMounted = true → w.viewer.destroyed = true → w.tilesetRefSet = true →
      ((toggleGlobe w).comp.showGlobe = !w.comp.showGlobe ∧
       (toggleGlobe w).viewer = w.viewer ∧
       (toggleGlobe w).tileset = applyTilesetPerformance w.tileset w.comp.ecoMode ∧
       (toggleWireframe w).comp.showWireframe = !w.comp.showWireframe ∧
       (toggleWireframe w).viewer = w.viewer ∧
       (toggleWireframe w).tileset.debugWireframe = !w.comp.showWireframe ∧
       (setNavMode w m).comp.navMode = m ∧
       (setNavMode w m).viewer.scene.screenSpaceCameraController
         = screenSpaceCameraControllerElement m ∧
       (toggleEcoMode w).comp = w.comp ∧
       (toggleEcoMode w).pendingNavigationEco = some (!w.comp.ecoMode) ∧
       (resetCamera w).viewer.camera.moves = w.viewer.camera.moves ∧
       (resetCamera w).comp = w.comp) := by
  intro w m h1 h2 h3
  refine ⟨?_, ?_, ?_, ?_, ?_, ?_, ?_, ?_, rfl, rfl, ?_, ?_⟩
  · simp [toggleGlobe, globeVisibilityEffect, ecoEffect, h1, h2, h3]
  · simp [toggleGlobe, globeVisibilityEffect, ecoEffect, h1, h2, h3]
  · simp [toggleGlobe, globeVisibilityEffect, ecoEffect, h1, h2, h3]
  · simp [toggleWireframe, wireframeEffect, h3]
  · simp [toggleWireframe, wireframeEffect, h3]
  · simp [toggleWireframe, wireframeEffect, h3]
  · simp [setNavMode, controllerPropsSync, h1]
  · simp [setNavMode, controllerPropsSync, h1]
  · rcases hbs : w.tileset.boundingSphere with _ | sphere <;>
      simp [resetCamera, zoomToTileset, viewBoundingSphereCall, h1, h2, h3, hbs]
  · rcases hbs : w.tileset.boundingSphere with _ | sphere <;>
      simp [resetCamera, zoomToTileset, viewBoundingSphereCall, h1, h2, h3, hbs]

/-- Witness for the C4 theorem at the concrete destroyed world. -/
theorem destroyed_engine_guarded_behavior_witness :
    (toggleGlobe destroyedWorld).comp.showGlobe = !destroyedWorld.comp.showGlobe ∧
    (toggleGlobe destroyedWorld).viewer = destroyedWorld.viewer ∧
    (setNavMode destroyedWorld .orbit).comp.navMode = .orbit ∧
    (resetCamera destroyedWorld).viewer.camera.moves
      = destroyedWorld.viewer.camera.moves := by
  obtain ⟨a, b, -, -, -, -, g, -, -, -, k, -⟩ :=
    destroyed_engine_guarded_behavior destroyedWorld .orbit rfl rfl rfl
  exact ⟨a, b, g, k⟩

/-- C5: for a successful load whose handle has a bounding sphere of
radius R, the framing deferred by the ready handler is issued with
heading 0, the fixed downward pitch -0.5, and range = R * 2.5, and the
loading indicator is gone; when the bounding sphere is absent, or the
engine camera call throws, the failure is contained inside
`zoomToTileset` (caught and logged): no camera move is recorded and no
error surfaces to the component. -/
theorem ready_framing_camera_move :
    (∀ (w : World) (sphere : BoundingSphere),
      w.viewerMounted = true → w.viewer.destroyed = false →
      w.viewer.camera.failing = false →
      w.tileset.boundingSphere = some sphere →
      ((settleTimer (fireTilesetReady w)).comp.isLoading = false ∧
       (settleTimer (fireTilesetReady w)).viewer.camera.moves
         = w.viewer.camera.moves
             ++ [(sphere, { heading := 0, pitch := -0.5, range := sphere.radius * 2.5 })])) ∧
    (∀ w : World, w.tileset.boundingSphere = none →
      (zoomToTileset w).viewer.camera.moves = w.viewer.camera.moves ∧
      (zoomToTileset w).comp.error = w.comp.error) ∧
    (∀ w : World, w.viewer.camera.failing = true →
      (zoomToTileset w).viewer.camera.moves = w.viewer.camera.moves ∧
      (zoomToTileset w).comp.error = w.comp.error) := by
  refine ⟨?_, ?_, ?_⟩
  · intro w sphere h1 h2 h3 hbs
    simp [settleTimer, zoomToTileset, fireTilesetReady, viewBoundingSphereCall,
      applyTilesetPerformance_boundingSphere, h1, h2, h3, hbs]
  · intro w hbs
    simp [zoomToTileset, hbs]
  · intro w h
    rcases hbs : w.tileset.boundingSphere with _ | sphere <;>
      by_cases hd : w.viewer.destroyed <;>
        simp [zoomToTileset, viewBoundingSphereCall, hbs, hd, h] <;>
          split_ifs <;> simp

/-- Witness for the C5 theorem at the base world (radius 100). -/
theorem ready_framing_camera_move_witness :
    (settleTimer (fireTilesetReady baseWorld)).comp.isLoading = false ∧
    (settleTimer (fireTilesetReady baseWorld)).viewer.camera.moves
      = [({ centerX := 0, centerY := 0, centerZ := 0, radius := 100 },
          { heading := 0, pitch := -0.5, range := (100 : ℚ) * 2.5 })] := by
  have h := ready_framing_camera_move.1 baseWorld
    { centerX := 0, centerY := 0, centerZ := 0, radius := 100 } rfl rfl rfl rfl
  exact ⟨h.1, by simpa using h.2⟩

/-- C6: the cursor is a pure function of the navigation mode and the two
drag flags.  In Pan mode it is "grabbing" iff the primary-drag flag is
set, the rotate cursor iff the secondary-drag flag is set and the
primary is not, and "grab" otherwise; Orbit always yields "grab" and
Zoom always yields the zoom cursor, whatever the drag flags. -/
theorem cursor_derivation :
    (∀ p r : Bool, cursorFor .pan p r = "grabbing" ↔ p = true) ∧
    (∀ p r : Bool, cursorFor .pan p r = ROTATE_CURSOR ↔ (r = true ∧ p = false)) ∧
    cursorFor .pan false false = "grab" ∧
    (∀ p r : Bool, cursorFor .orbit p r = "grab") ∧
    (∀ p r : Bool, cursorFor .zoom p r = "zoom-in") := by
  refine ⟨?_, ?_, rfl, ?_, ?_⟩ <;> intro p r <;> cases p <;> cases r <;>
    simp [cursorFor, NAV_CURSORS, ROTATE_CURSOR]

/-- C7: a tileset-error callback while loading moves the state from
Loading to Failed: the loading overlay is gone and the error overlay
shows the failure message together with the hint naming the expected
asset directory derived from the configured asset URL. -/
theorem error_transition_failed_state :
    ∀ w : World, w.comp.isLoading = true → w.comp.error = none →
      (loadingOverlayVisible (fireTilesetError w) = false ∧
       errorOverlay (fireTilesetError w)
         = some ("Failed to load 3D tileset. Check if the data files exist.",
             "Make sure tileset.json and .b3dm files are in "
               ++ getDataPathFromUrl w.tilesetUrl)) := by
  intro w h1 h2
  exact ⟨rfl, rfl⟩

/-- Witness for the C7 theorem at the base world, whose asset URL
`/data/alpha/tileset.json` yields the directory `public/data/alpha/`. -/
theorem error_transition_failed_state_witness :
    loadingOverlayVisible (fireTilesetError baseWorld) = false ∧
    errorOverlay (fireTilesetError baseWorld)
      = some ("Failed to load 3D tileset. Check if the data files exist.",
          "Make sure tileset.json and .b3dm files are in public/data/alpha/") := by
  have h := error_transition_failed_state baseWorld rfl rfl
  exact ⟨h.1, h.2⟩

/-- C9: the initial performance profile read from the query string is
Quality (`ecoMode = false`) iff the `eco` parameter is exactly the
string "false"; an absent parameter or any other value (such as "0",
"FALSE" or garbage) yields Eco. -/
theorem eco_quality_iff_param_false :
    ∀ params : List (String × String),
      ((initialComponentState params).ecoMode = false
        ↔ getParam params "eco" = some "false") := by
  intro params
  simp only [initialComponentState, ecoModeFromSearchParams]
  split_ifs with h1 h2
  · simp [h1]
  · simp [h2]
  · simp [h1]

/-- C10: the camera-controller zoom configuration is invariant: the
controller element always carries minimumZoomDistance 1,
maximumZoomDistance 100000, inertiaZoom 0.5 and zoomFactor 5 whatever
the mode; viewer mount installs the same values; a navigation-mode
change reinstalls the element's configuration; and the performance
profile application never touches the controller. -/
theorem zoom_settings_invariant :
    (∀ mode : NavigationMode,
      (screenSpaceCameraControllerElement mode).minimumZoomDistance = 1 ∧
      (screenSpaceCameraControllerElement mode).maximumZoomDistance = 100000 ∧
      (screenSpaceCameraControllerElement mode).inertiaZoom = 0.5 ∧
      (screenSpaceCameraControllerElement mode).zoomFactor = 5) ∧
    (∀ w : World,
      (handleViewerReady w).viewer.scene.screenSpaceCameraController.minimumZoomDistance = 1 ∧
      (handleViewerReady w).viewer.scene.screenSpaceCameraController.maximumZoomDistance = 100000 ∧
      (handleViewerReady w).viewer.scene.screenSpaceCameraController.inertiaZoom = 0.5 ∧
      (handleViewerReady w).viewer.scene.screenSpaceCameraController.zoomFactor = 5) ∧
    (∀ (w : World) (mode : NavigationMode),
      (setNavMode { w with viewerMounted := true } mode).viewer.scene.screenSpaceCameraController
        = screenSpaceCameraControllerElement mode) ∧
    (∀ (v : ViewerState) (e pref : Bool),
      (applyScenePerformance v e pref).scene.screenSpaceCameraController
        = v.scene.screenSpaceCameraController) := by
  refine ⟨fun mode => ⟨rfl, rfl, rfl, rfl⟩, fun w => ?_, fun w mode => ?_,
    applyScenePerformance_controller⟩
  · simp [handleViewerReady, applyScenePerformance_controller, configureCameraControls]
  · simp [setNavMode, controllerPropsSync]

lemma segUpToSlash_append (seg tail : List Char) (h : '/' ∉ seg) :
    segUpToSlash (seg ++ '/' :: tail) = some seg := by
  induction seg with
  | nil => simp [segUpToSlash]
  | cons a as ih =>
      have ha : a ≠ '/' := by rintro rfl; exact h (List.mem_cons_self _ _)
      have has : '/' ∉ as := fun q => h (List.mem_cons_of_mem _ q)
      simp [segUpToSlash, ha, ih has]

lemma sceneSegmentOfUrl_concat (c : Char) (cs : List Char) (h : '/' ∉ c :: cs) :
    sceneSegmentOfUrl (String.mk ("/data/".data ++ (c :: cs) ++ "/tileset.json".data))
      = c :: cs := by
  have hdata : (String.mk ("/data/".data ++ (c :: cs) ++ "/tileset.json".data)).data.reverse
      = "/tileset.json".data.reverse ++ ((c :: cs).reverse ++ ('/' :: "atad/".data)) := by
    simp [List.reverse_append]
  have h13 : ("/tileset.json".data.reverse).length = 13 := rfl
  have hrev : '/' ∉ (c :: cs).reverse := by
    simp only [List.mem_reverse]; exact h
  have hseg : segUpToSlash ((c :: cs).reverse ++ '/' :: "atad/".data)
      = some ((c :: cs).reverse) := segUpToSlash_append _ _ hrev
  simp only [sceneSegmentOfUrl, hdata, List.take_left' h13, List.drop_left' h13]
  rw [if_pos (by decide)]
  rw [hseg]
  rcases hS : (c :: cs).reverse with _ | ⟨d, ds⟩
  · exact absurd (List.reverse_eq_nil_iff.mp hS) (by simp)
  · simp [← hS]

/-- C8: for every asset URL of the form `/data/<segment>/tileset.json`
(segment non-empty and slash-free), the displayed scene name is the
segment with its first character upper-cased and the remainder
lower-cased. -/
theorem scene_name_derivation :
    ∀ (c : Char) (cs : List Char), '/' ∉ c :: cs →
      getSceneDisplayNameFromUrl
          (String.mk ("/data/".data ++ (c :: cs) ++ "/tileset.json".data))
        = String.mk (c.toUpper :: cs.map Char.toLower) := by
  intro c cs h
  simp only [getSceneDisplayNameFromUrl, sceneSegmentOfUrl_concat c cs h]

/-- Witness for the C8 theorem: `/data/corujeira/tileset.json` is
displayed as "Corujeira". -/
theorem scene_name_derivation_witness :
    getSceneDisplayNameFromUrl "/data/corujeira/tileset.json" = "Corujeira" := by
  have h := scene_name_derivation 'c' "orujeira".data (by decide)
  exact h
